import Mathlib

/-!
Verification of the AutoIR diagram scripts.

The repository consists of five Python scripts (deployment, llm_flow,
overview, pipeline, search_ui), each of which builds one fixed Graphviz
directed graph (nodes, edges, optional clusters), renders it to SVG in an
`out` directory and prints the written path.  Below we embed the literal
graph each script constructs, the output-directory resolver and the render
call, and prove the structural properties claimed of them.
-/

namespace AutoIR

/-- A Graphviz node as declared by `dot.node(id, label, shape=...)`. -/
structure Node where
  id : String
  label : String
  shape : Option String := none
deriving DecidableEq, Repr

/-- A Graphviz edge as declared by `dot.edge(tail, head, label=..., style=...,
color=..., dir=...)`; absent keyword arguments are `none`. -/
structure Edge where
  tail : String
  head : String
  label : Option String := none
  style : Option String := none
  color : Option String := none
  dir : Option String := none
deriving DecidableEq, Repr

/-- A cluster subgraph: `with dot.subgraph(name=...) as c:` followed by
`c.attr(label=..., color=..., style=...)` and the nodes added inside it. -/
structure Cluster where
  name : String
  label : Option String := none
  color : Option String := none
  style : Option String := none
  nodes : List Node
deriving DecidableEq, Repr

/-- A directed graph as built by one script: `Digraph(name, ..., format=...)`
followed by `dot.attr(rankdir=..., fontsize=..., fontname=...)`, the cluster
blocks, the ungrouped `dot.node` calls and the `dot.edge` calls. -/
structure Digraph where
  name : String
  format : String
  rankdir : String
  fontsize : Option String := none
  fontname : Option String := none
  clusters : List Cluster
  nodes : List Node
  edges : List Edge
deriving DecidableEq, Repr

/-- All node identifiers declared in a graph: the nodes inside clusters
together with the ungrouped nodes. -/
def Digraph.allNodeIds (g : Digraph) : List String :=
  (g.clusters.flatMap fun c => c.nodes.map Node.id) ++ g.nodes.map Node.id

/-- The graph built by `overview.py::generate`: five clusters, then the
fifteen `dot.edge` calls. -/
def overview_graph : Digraph where
  name := "autoir_overview"
  format := "svg"
  rankdir := "LR"
  fontsize := some "10"
  fontname := some "Inter,Helvetica,Arial,sans-serif"
  clusters :=
    [ { name := "cluster_aws", label := some "AWS", color := some "#FF9900",
        style := some "rounded",
        nodes :=
          [ { id := "cw", label := "CloudWatch Logs", shape := some "component" },
            { id := "sagemaker", label := "SageMaker\n(Serverless Embeddings)",
              shape := some "box" },
            { id := "ecs", label := "ECS Fargate\n(AutoIR Daemon)", shape := some "box" },
            { id := "cf", label := "CloudFormation", shape := some "folder" },
            { id := "ecr", label := "ECR", shape := some "cylinder" },
            { id := "iam", label := "IAM", shape := some "tab" } ] },
      { name := "cluster_autoir", label := some "AutoIR", color := some "#00B3E6",
        style := some "rounded",
        nodes :=
          [ { id := "cli", label := "CLI / TUI\n(Combined Dashboard + Search)",
              shape := some "box" },
            { id := "daemon", label := "Daemon\n(ingest, analyze, alert)",
              shape := some "box" },
            { id := "llmclient", label := "LLM Client\n(Kimi K2 / OpenAI)",
              shape := some "box" } ] },
      { name := "cluster_data", label := some "Data", color := some "#33AA55",
        style := some "rounded",
        nodes :=
          [ { id := "tidb", label := "TiDB\nVECTOR(384) log store\n+ incidents",
              shape := some "cylinder" } ] },
      { name := "cluster_alerts", label := some "Alerts", color := some "#DD4477",
        style := some "rounded",
        nodes :=
          [ { id := "slack", label := "Slack Webhook", shape := some "box" },
            { id := "sns", label := "Amazon SNS", shape := some "box" } ] },
      { name := "cluster_llm", label := some "LLM Providers", color := some "#6666FF",
        style := some "rounded",
        nodes :=
          [ { id := "kimi", label := "Kimi K2\n(EC2 endpoint)", shape := some "box" },
            { id := "openai", label := "OpenAI", shape := some "box" } ] } ]
  nodes := []
  edges :=
    [ { tail := "cw", head := "daemon", label := some "tail /aws/...",
        color := some "#555555" },
      { tail := "daemon", head := "sagemaker", label := some "embed text",
        color := some "#555555" },
      { tail := "sagemaker", head := "daemon", label := some "vector(384)" },
      { tail := "daemon", head := "tidb", label := some "INSERT logs + embeddings" },
      { tail := "cli", head := "tidb", label := some "search/query" },
      { tail := "cli", head := "ecs", label := some "deploy/manage",
        style := some "dashed" },
      { tail := "cf", head := "ecs", label := some "stack", style := some "dashed" },
      { tail := "ecr", head := "ecs", label := some "image", style := some "dashed" },
      { tail := "iam", head := "ecs", style := some "dashed" },
      { tail := "daemon", head := "llmclient", label := some "incident analysis" },
      { tail := "llmclient", head := "kimi", style := some "dashed" },
      { tail := "llmclient", head := "openai", style := some "dashed" },
      { tail := "daemon", head := "slack", label := some "alerts" },
      { tail := "daemon", head := "sns", label := some "alerts" },
      { tail := "cw", head := "cli", label := some "dashboard", style := some "dotted" } ]

/-- The graph built by `deployment.py::generate`: one cluster, two ungrouped
nodes and five edges. -/
def deployment_graph : Digraph where
  name := "autoir_deployment"
  format := "svg"
  rankdir := "TB"
  clusters :=
    [ { name := "cluster_cfn", label := some "CloudFormation Stack: AutoIR-Fargate",
        style := some "rounded",
        nodes :=
          [ { id := "ecs", label := "ECS Service: autoir", shape := some "box" },
            { id := "task", label := "Task Definition", shape := some "box" },
            { id := "logs", label := "CloudWatch Logs: /autoir/daemon",
              shape := some "component" },
            { id := "role", label := "IAM Roles (task/execution)", shape := some "tab" } ] } ]
  nodes :=
    [ { id := "ecr", label := "ECR: autoir:latest", shape := some "cylinder" },
      { id := "sg", label := "VPC + Subnets + SG", shape := some "box" } ]
  edges :=
    [ { tail := "ecr", head := "task", label := some "Image" },
      { tail := "task", head := "ecs", label := some "Run" },
      { tail := "role", head := "task" },
      { tail := "ecs", head := "logs", label := some "awslogs" },
      { tail := "sg", head := "ecs" } ]

/-- The graph built by `llm_flow.py::generate`: seven ungrouped nodes and six
unlabeled edges. -/
def llm_flow_graph : Digraph where
  name := "autoir_llm_flow"
  format := "svg"
  rankdir := "LR"
  clusters := []
  nodes :=
    [ { id := "events", label := "Recent Events\n(TiDB)", shape := some "cylinder" },
      { id := "heur", label := "Heuristics\n(error/timeouts/...)", shape := some "box" },
      { id := "prompt", label := "Prompt Builder\n(system + context)", shape := some "box" },
      { id := "llm", label := "LLM Client\n(Kimi K2 / OpenAI)", shape := some "box" },
      { id := "incidents",
        label := "Incidents JSON\n(title, severity, confidence, dedupe_key)",
        shape := some "box" },
      { id := "store", label := "Incident Store\n(TiDB)", shape := some "cylinder" },
      { id := "notify", label := "Notify\n(Slack/SNS)", shape := some "box" } ]
  edges :=
    [ { tail := "events", head := "heur" },
      { tail := "heur", head := "prompt" },
      { tail := "prompt", head := "llm" },
      { tail := "llm", head := "incidents" },
      { tail := "incidents", head := "store" },
      { tail := "incidents", head := "notify" } ]

/-- The graph built by `pipeline.py::generate`: six ungrouped nodes and five
edges, two of them with `dir="both"`. -/
def pipeline_graph : Digraph where
  name := "autoir_pipeline"
  format := "svg"
  rankdir := "LR"
  clusters := []
  nodes :=
    [ { id := "ingest", label := "Ingest\n(CloudWatch tail)", shape := some "box" },
      { id := "embed", label := "Embeddings\n(SageMaker)", shape := some "box" },
      { id := "store", label := "Store\nTiDB VECTOR(384)", shape := some "cylinder" },
      { id := "search", label := "Search\n(Log Search TUI)", shape := some "box" },
      { id := "analysis", label := "Analysis\n(LLM: Kimi K2/OpenAI)", shape := some "box" },
      { id := "alerts", label := "Alerts\n(Slack/SNS)", shape := some "box" } ]
  edges :=
    [ { tail := "ingest", head := "embed", label := some "messages" },
      { tail := "embed", head := "store", label := some "vector(384)" },
      { tail := "search", head := "store", label := some "query vectors",
        dir := some "both" },
      { tail := "analysis", head := "store", label := some "context",
        dir := some "both" },
      { tail := "analysis", head := "alerts", label := some "incidents" } ]

/-- The graph built by `search_ui.py::generate`: seven ungrouped nodes and,
via `dot.edges([...])`, seven unlabeled edges. -/
def search_ui_graph : Digraph where
  name := "autoir_search_ui"
  format := "svg"
  rankdir := "LR"
  clusters := []
  nodes :=
    [ { id := "title", label := "Title Bar", shape := some "box" },
      { id := "searchbox", label := "Search Box", shape := some "box" },
      { id := "results", label := "Results Table", shape := some "box" },
      { id := "status", label := "Service Status Cards", shape := some "box" },
      { id := "charts", label := "Charts (tasks/cpu/mem)", shape := some "box" },
      { id := "tasks", label := "Tasks Table", shape := some "box" },
      { id := "help", label := "Hotkeys: Enter/r/d/q", shape := some "box" } ]
  edges :=
    [ { tail := "title", head := "searchbox" },
      { tail := "searchbox", head := "results" },
      { tail := "title", head := "status" },
      { tail := "status", head := "charts" },
      { tail := "charts", head := "tasks" },
      { tail := "results", head := "help" },
      { tail := "tasks", head := "help" } ]

/-! ## Output-directory resolver

`ensure_out_dir` in every script is
`out_dir = Path(__file__).parent / "out"; out_dir.mkdir(parents=True,
exist_ok=True); return out_dir`.  We model the filesystem as the set of
directories that exist, each a path given as its list of segments; the base
location `Path(__file__).parent` is a parameter. -/

/-- The directories currently existing on the filesystem, each as a list of
path segments from the root. -/
structure DirState where
  dirs : List (List String)
deriving DecidableEq, Repr

/-- The nonempty prefixes of a path, shortest first, the path itself last:
the chain of directories `mkdir(parents=True)` has to establish. -/
def pathChain (p : List String) : List (List String) :=
  (List.range p.length).map fun i => p.take (i + 1)

/-- `Path.mkdir(parents=True, exist_ok=True)`: every missing directory along
the path is created, existing ones are left alone, and no error is raised
when the directory already exists. -/
def mkdir_parents_exist_ok (fs : DirState) (p : List String) : DirState :=
  { dirs := fs.dirs ++ (pathChain p).filter fun q => decide (q ∉ fs.dirs) }

/-- `ensure_out_dir`: appends the segment `out` to the base location, creates
that directory together with any missing parents, and returns the path. -/
def ensure_out_dir (base : List String) (fs : DirState) : List String × DirState :=
  let out_dir := base ++ ["out"]
  (out_dir, mkdir_parents_exist_ok fs out_dir)

/-! ## Render invocation

Each script ends with `return Path(dot.render(cleanup=True))` where the
`Digraph` was constructed with `filename=str(path / name)` and
`format="svg"`, and `__main__` prints `f"Wrote {out_file}"` (one console
line).  The rendering backend is the external graphviz library. -/

/-- The files currently existing in the output area, each as a full path
string. -/
structure FileState where
  files : List String
deriving DecidableEq, Repr

/-- Modelled from the spec: the external rendering backend's `render` call,
which is not part of this repository.  Per the spec it writes the graph
source to the given filename, writes the rendered result beside it under the
fixed base filename with the format's extension appended, removes the
intermediate source artifact when cleanup is requested, and returns the
final output file path. -/
def render (fs : FileState) (filename fmt : String) (cleanup : Bool) :
    FileState × String :=
  let out := filename ++ "." ++ fmt
  let written := (fs.files.filter fun f => decide (f ≠ filename) && decide (f ≠ out))
    ++ [filename, out]
  let final := if cleanup then written.filter fun f => decide (f ≠ filename) else written
  ({ files := final }, out)

/-- The common `__main__` body of a script, after the output directory has
been resolved to `path`: build the graph, render it with cleanup requested,
and print one `Wrote ...` line.  Returns the filesystem, the path returned
by `generate`, and the console output. -/
def run_script (g : Digraph) (fixed_name path : String) (fs : FileState) :
    FileState × String × List String :=
  let r := render fs (path ++ "/" ++ fixed_name) g.format true
  (r.1, r.2, ["Wrote " ++ r.2])

/-! ## Derived notions used by the claims -/

/-- The ordered (tail, head) identifier pairs of a graph's edges. -/
def Digraph.edgePairs (g : Digraph) : List (String × String) :=
  g.edges.map fun e => (e.tail, e.head)

/-- Structural well-formedness: every edge's tail and head identifier is
declared as a node of the same graph. -/
def Digraph.edgesWellFormed (g : Digraph) : Bool :=
  g.edges.all fun e => g.allNodeIds.contains e.tail && g.allNodeIds.contains e.head

/-- The five graphs, one per script. -/
def all_graphs : List Digraph :=
  [overview_graph, deployment_graph, llm_flow_graph, pipeline_graph, search_ui_graph]

/-- What claim C9 asserts of one script run: the graph requests SVG, the
returned path is the fixed diagram name with the `.svg` extension under the
resolved directory, that path is printed as the single console line, the
intermediate source artifact is gone, the output file is present exactly
once, and no other file was created. -/
def script_spec (g : Digraph) (fixed_name path : String) (fs : FileState) : Prop :=
  g.format = "svg" ∧
  (run_script g fixed_name path fs).2.1 = path ++ "/" ++ fixed_name ++ ".svg" ∧
  (run_script g fixed_name path fs).2.2 =
    ["Wrote " ++ (path ++ "/" ++ fixed_name ++ ".svg")] ∧
  path ++ "/" ++ fixed_name ∉ (run_script g fixed_name path fs).1.files ∧
  (run_script g fixed_name path fs).1.files.count (path ++ "/" ++ fixed_name ++ ".svg") = 1 ∧
  (run_script g fixed_name path fs).1.files ⊆
    (path ++ "/" ++ fixed_name ++ ".svg") :: fs.files

/-! ## Theorems -/

/-- C1, counterexample: the overview graph declares 15 edges, not 14 — the
claim's edge count is false on the code. -/
theorem overview_edge_count_ne_14 : overview_graph.edges.length ≠ 14 := by decide

/-- C1, amended: the overview graph consists of exactly five clusters,
labeled AWS, AutoIR, Data, Alerts and LLM Providers, containing 14 nodes in
total (no node is outside a cluster), and declares exactly 15 edges, whose
styles include solid (no style attribute), dashed and dotted. -/
theorem overview_structure :
    overview_graph.clusters.map Cluster.label =
      [some "AWS", some "AutoIR", some "Data", some "Alerts", some "LLM Providers"] ∧
    overview_graph.allNodeIds.length = 14 ∧
    overview_graph.nodes = [] ∧
    overview_graph.edges.length = 15 ∧
    (∃ e ∈ overview_graph.edges, e.style = none) ∧
    (∃ e ∈ overview_graph.edges, e.style = some "dashed") ∧
    (∃ e ∈ overview_graph.edges, e.style = some "dotted") := by decide

/-- C2, counterexample: the search_ui graph declares 7 edges, not 8 — the
claim's edge count is false on the code. -/
theorem search_ui_edge_count_ne_8 : search_ui_graph.edges.length ≠ 8 := by decide

/-- C2, amended: the search_ui graph consists of exactly seven nodes, none
inside a cluster (title bar, search box, results table, status cards,
charts, tasks table, help bar), connected by exactly seven edges, none of
which carries a label. -/
theorem search_ui_structure :
    search_ui_graph.clusters = [] ∧
    search_ui_graph.nodes.map Node.id =
      ["title", "searchbox", "results", "status", "charts", "tasks", "help"] ∧
    search_ui_graph.edges.length = 7 ∧
    search_ui_graph.edges.map Edge.label = List.replicate 7 none := by decide

/-- C3: in each of the five diagram graphs, every declared edge's tail and
head identifier appears among the node identifiers declared in that graph
(cluster nodes included) — no graph contains a dangling edge. -/
theorem no_dangling_edges :
    all_graphs.all Digraph.edgesWellFormed = true := by decide

/-- C4: within each single diagram's graph, the declared node identifiers
(cluster nodes together with ungrouped nodes) are pairwise distinct. -/
theorem node_ids_nodup :
    overview_graph.allNodeIds.Nodup ∧
    deployment_graph.allNodeIds.Nodup ∧
    llm_flow_graph.allNodeIds.Nodup ∧
    pipeline_graph.allNodeIds.Nodup ∧
    search_ui_graph.allNodeIds.Nodup := by decide

/-- C5: the deployment graph has exactly one cluster, labeled as the
CloudFormation stack, holding exactly the ECS-service, task-definition,
logs and IAM-roles nodes; exactly two nodes outside any cluster (the image
registry and the network/security-group); and exactly the five directed
edges image registry to task definition, task definition to ECS service,
IAM roles to task definition, ECS service to logs, and network to ECS
service. -/
theorem deployment_structure :
    deployment_graph.clusters.map Cluster.label =
      [some "CloudFormation Stack: AutoIR-Fargate"] ∧
    (deployment_graph.clusters.map fun c => c.nodes.map Node.id) =
      [["ecs", "task", "logs", "role"]] ∧
    deployment_graph.nodes.map Node.id = ["ecr", "sg"] ∧
    deployment_graph.edgePairs =
      [("ecr", "task"), ("task", "ecs"), ("role", "task"),
       ("ecs", "logs"), ("sg", "ecs")] := by decide

/-- C6: the pipeline graph has exactly six nodes, none inside a cluster
(ingest, embed, store, search, analysis, alerts), exactly the five edges
ingest to embed, embed to store, search to store, analysis to store and
analysis to alerts, of which exactly the search–store and analysis–store
edges are marked bidirectional, and the layout direction is
left-to-right. -/
theorem pipeline_structure :
    pipeline_graph.clusters = [] ∧
    pipeline_graph.nodes.map Node.id =
      ["ingest", "embed", "store", "search", "analysis", "alerts"] ∧
    pipeline_graph.edgePairs =
      [("ingest", "embed"), ("embed", "store"), ("search", "store"),
       ("analysis", "store"), ("analysis", "alerts")] ∧
    ((pipeline_graph.edges.filter fun e => e.dir == some "both").map
        fun e => (e.tail, e.head)) =
      [("search", "store"), ("analysis", "store")] ∧
    pipeline_graph.rankdir = "LR" := by decide

/-- C7: the llm_flow graph has exactly seven nodes, none inside a cluster,
and exactly the six directed edges forming the chain events store to
heuristics to prompt builder to LLM client to incidents, with the
incidents node having exactly the two outgoing edges to the incident store
and to notify; no edge is bidirectional. -/
theorem llm_flow_structure :
    llm_flow_graph.clusters = [] ∧
    llm_flow_graph.nodes.length = 7 ∧
    llm_flow_graph.edgePairs =
      [("events", "heur"), ("heur", "prompt"), ("prompt", "llm"),
       ("llm", "incidents"), ("incidents", "store"), ("incidents", "notify")] ∧
    ((llm_flow_graph.edges.filter fun e => e.tail == "incidents").map Edge.head) =
      ["store", "notify"] ∧
    llm_flow_graph.edges.all (fun e => e.dir == none) = true := by decide

/-- C10: the deployment graph is laid out top-to-bottom while the other four
graphs (overview, llm_flow, pipeline, search_ui) are all laid out
left-to-right — the deployment script is the only one whose layout
direction differs. -/
theorem layout_directions :
    deployment_graph.rankdir = "TB" ∧
    overview_graph.rankdir = "LR" ∧
    llm_flow_graph.rankdir = "LR" ∧
    pipeline_graph.rankdir = "LR" ∧
    search_ui_graph.rankdir = "LR" := by decide

/-! ### Output-directory resolver lemmas -/

/-- Every directory along the requested path exists after the mkdir call. -/
theorem mem_mkdir_parents (fs : DirState) (p q : List String)
    (hq : q ∈ pathChain p) : q ∈ (mkdir_parents_exist_ok fs p).dirs := by
  simp only [mkdir_parents_exist_ok, List.mem_append, List.mem_filter,
    decide_eq_true_eq]
  by_cases h : q ∈ fs.dirs
  · exact Or.inl h
  · exact Or.inr ⟨hq, h⟩

/-- A nonempty path occurs in its own chain of directories. -/
theorem self_mem_pathChain (p : List String) (hp : p ≠ []) : p ∈ pathChain p := by
  have hlen : 0 < p.length := List.length_pos.mpr hp
  refine List.mem_map.mpr ⟨p.length - 1, List.mem_range.mpr (by omega), ?_⟩
  have h1 : p.length - 1 + 1 = p.length := by omega
  rw [h1, List.take_length]

/-- When every directory along the path already exists, the mkdir call leaves
the filesystem unchanged (the exist_ok behavior). -/
theorem mkdir_parents_noop (fs : DirState) (p : List String)
    (h : ∀ q ∈ pathChain p, q ∈ fs.dirs) :
    mkdir_parents_exist_ok fs p = fs := by
  unfold mkdir_parents_exist_ok
  have hnil : ((pathChain p).filter fun q => decide (q ∉ fs.dirs)) = [] := by
    rw [List.filter_eq_nil_iff]
    intro a ha
    simp [h a ha]
  rw [hnil, List.append_nil]

/-- C8: the output-directory resolver returns the path obtained by appending
the segment `out` to the base location; after the call that directory and
every missing parent segment along it exist; and a second call on the
resulting state succeeds, returns the same path, and leaves the filesystem
state unchanged. -/
theorem ensure_out_dir_spec (base : List String) (fs : DirState) :
    (ensure_out_dir base fs).1 = base ++ ["out"] ∧
    pathChain (base ++ ["out"]) ⊆ (ensure_out_dir base fs).2.dirs ∧
    base ++ ["out"] ∈ (ensure_out_dir base fs).2.dirs ∧
    ensure_out_dir base (ensure_out_dir base fs).2 = ensure_out_dir base fs := by
  refine ⟨rfl, ?_, ?_, ?_⟩
  · intro q hq
    exact mem_mkdir_parents fs _ q hq
  · exact mem_mkdir_parents fs _ _ (self_mem_pathChain _ (by simp))
  · show (base ++ ["out"],
        mkdir_parents_exist_ok (mkdir_parents_exist_ok fs (base ++ ["out"]))
          (base ++ ["out"])) = _
    rw [mkdir_parents_noop _ _ fun q hq => mem_mkdir_parents fs _ q hq]
    rfl

/-! ### Render-invocation lemmas -/

/-- The output path never coincides with the source filename, because the
extension is nonempty. -/
theorem render_out_ne (filename fmt : String) : filename ++ "." ++ fmt ≠ filename := by
  intro heq
  have hl := congrArg String.length heq
  rw [String.length_append, String.length_append] at hl
  have hdot : String.length "." = 1 := by decide
  rw [hdot] at hl
  omega

/-- The path returned by the render call. -/
theorem render_snd (fs : FileState) (filename fmt : String) (c : Bool) :
    (render fs filename fmt c).2 = filename ++ "." ++ fmt := rfl

/-- The files left behind by a render call with cleanup requested. -/
theorem render_cleanup_files (fs : FileState) (filename fmt : String) :
    (render fs filename fmt true).1.files =
      ((fs.files.filter fun f =>
          decide (f ≠ filename) && decide (f ≠ filename ++ "." ++ fmt))
        ++ [filename, filename ++ "." ++ fmt]).filter
        fun f => decide (f ≠ filename) := rfl

/-- Cleanup removes the intermediate source artifact. -/
theorem render_cleanup_src_not_mem (fs : FileState) (filename fmt : String) :
    filename ∉ (render fs filename fmt true).1.files := by
  rw [render_cleanup_files]
  intro hmem
  have h2 := (List.mem_filter.mp hmem).2
  simp at h2

/-- A render call with cleanup creates no file other than the output. -/
theorem render_cleanup_subset (fs : FileState) (filename fmt : String) :
    (render fs filename fmt true).1.files ⊆ (filename ++ "." ++ fmt) :: fs.files := by
  rw [render_cleanup_files]
  intro f hf
  have hne : f ≠ filename := by simpa using (List.mem_filter.mp hf).2
  rcases List.mem_append.mp (List.mem_filter.mp hf).1 with h | h
  · exact List.mem_cons_of_mem _ (List.mem_filter.mp h).1
  · simp only [List.mem_cons, List.mem_singleton, List.not_mem_nil, or_false] at h
    rcases h with h | h
    · exact absurd h hne
    · rw [h]
      exact List.mem_cons_self _ _

/-- A render call with cleanup leaves exactly one copy of the output file. -/
theorem render_cleanup_count (fs : FileState) (filename fmt : String) :
    (render fs filename fmt true).1.files.count (filename ++ "." ++ fmt) = 1 := by
  rw [render_cleanup_files, List.filter_append, List.count_append]
  have hout : ([filename, filename ++ "." ++ fmt].filter fun f => decide (f ≠ filename))
      = [filename ++ "." ++ fmt] := by
    simp [List.filter_cons, render_out_ne filename fmt]
  have hzero : ((fs.files.filter fun f =>
        decide (f ≠ filename) && decide (f ≠ filename ++ "." ++ fmt)).filter
        fun f => decide (f ≠ filename)).count (filename ++ "." ++ fmt) = 0 := by
    rw [List.count_eq_zero]
    intro hmem
    have h2 := (List.mem_filter.mp (List.mem_filter.mp hmem).1).2
    simp only [Bool.and_eq_true, decide_eq_true_eq] at h2
    exact h2.2 rfl
  rw [hout, hzero]
  simp

/-- Any script whose graph requests SVG satisfies the per-script render
specification. -/
theorem script_spec_holds (g : Digraph) (hg : g.format = "svg")
    (fixed_name path : String) (fs : FileState) :
    script_spec g fixed_name path fs := by
  have hdotsvg : ("." ++ "svg" : String) = ".svg" := by decide
  have hsvg : (path ++ "/" ++ fixed_name) ++ "." ++ "svg"
      = path ++ "/" ++ fixed_name ++ ".svg" := by
    rw [String.append_assoc, hdotsvg]
  unfold script_spec run_script
  rw [hg]
  refine ⟨rfl, ?_, ?_, ?_, ?_, ?_⟩
  · show (render fs (path ++ "/" ++ fixed_name) "svg" true).2 = _
    rw [render_snd, hsvg]
  · show ["Wrote " ++ (render fs (path ++ "/" ++ fixed_name) "svg" true).2] = _
    rw [render_snd, hsvg]
  · exact render_cleanup_src_not_mem fs _ _
  · rw [← hsvg]
    exact render_cleanup_count fs _ _
  · rw [← hsvg]
    exact render_cleanup_subset fs _ _

/-- C9: for every script, the render invocation requests SVG, writes exactly
one output file into the resolved directory named after the diagram with the
`.svg` extension (present exactly once, and nothing else is created),
removes the intermediate source artifact, returns the final output file
path, and the script prints that path as a single `Wrote ...` console
line. -/
theorem scripts_render_spec (path : String) (fs : FileState) :
    script_spec overview_graph "overview" path fs ∧
    script_spec deployment_graph "deployment" path fs ∧
    script_spec llm_flow_graph "llm_flow" path fs ∧
    script_spec pipeline_graph "pipeline" path fs ∧
    script_spec search_ui_graph "search_ui" path fs :=
  ⟨script_spec_holds _ rfl _ _ _, script_spec_holds _ rfl _ _ _,
   script_spec_holds _ rfl _ _ _, script_spec_holds _ rfl _ _ _,
   script_spec_holds _ rfl _ _ _⟩

end AutoIR
